import Mathlib

/-!
# Verification of the trcli reconciliation-and-batch-upload engine

Shallow embedding of `trcli/api/api_request_handler.py` and
`trcli/api/results_uploader.py`.  Network calls are modelled by passing the
transport's response(s) as explicit arguments; the data provider
(`ApiDataProvider`, not part of the verified sources) is modelled from the
spec as an accumulating record of merged resources.
-/

namespace Trcli

/-- The result of one transport call (`APIClientResult`).  Modelled from the
spec: the transport module is not under the verified sources; the spec says a
request returns "either a decoded response body or an error string", and the
handlers test `response.error_message` for emptiness.  `response_text` is the
decoded body, `error_message` is empty exactly on success. -/
structure APIResult (α : Type) where
  response_text : α
  error_message : String
deriving Repr, DecidableEq

/-- Modelled from the spec: `SuiteModes` lives in the constants module, which
is not under the verified sources.  The spec's scenario fixes
`suite_mode=3` as multiple-suites mode; modes 1 and 2 are single suite and
single suite with baselines. -/
def SuiteModes.single_suite : Int := 1

def SuiteModes.single_suite_baselines : Int := 2

def SuiteModes.multiple_suites : Int := 3

/-- Modelled from the spec: `ProjectErrors` sentinel for a project name that
matches no remote project (constants module not under the verified sources). -/
def ProjectErrors.not_existing_project : Int := -1

/-- Modelled from the spec: `ProjectErrors` sentinel for a transport error
while listing projects. -/
def ProjectErrors.other_error : Int := -2

/-- Modelled from the spec: `ProjectErrors` sentinel for an ambiguous
(duplicated) project name. -/
def ProjectErrors.multiple_project_same_name : Int := -3

/-- One entry of the remote project list, as consumed by `get_project_id`
(`{id, name, suite_mode}`). -/
structure ProjectInfo where
  id : Int
  name : String
  suite_mode : Int
deriving Repr, DecidableEq, Inhabited

/-- Return value of `ApiRequestHandler.get_project_id`. -/
structure ProjectData where
  project_id : Int
  suite_mode : Int
  error_message : String
deriving Repr, DecidableEq

/-- `ApiRequestHandler.get_project_id`, with the `get_projects` response made
explicit.  Filters the remote projects by exact name equality and classifies
the outcome exactly as the source does. -/
def get_project_id (resp : APIResult (List ProjectInfo)) (project_name : String) :
    ProjectData :=
  if resp.error_message = "" then
    let available_projects := resp.response_text.filter (fun p => p.name = project_name)
    if available_projects.length = 1 then
      { project_id := (available_projects.headI).id,
        suite_mode := (available_projects.headI).suite_mode,
        error_message := resp.error_message }
    else if available_projects.length > 1 then
      { project_id := ProjectErrors.multiple_project_same_name,
        suite_mode := -1,
        error_message := "more_than_one_project" }
    else
      { project_id := ProjectErrors.not_existing_project,
        suite_mode := -1,
        error_message := project_name ++ " project_doesnt_exists" }
  else
    { project_id := ProjectErrors.other_error,
      suite_mode := -1,
      error_message := resp.error_message }

/-- One entry of the remote suite list (`{id, name}`). -/
structure SuiteInfo where
  id : Int
  name : String
deriving Repr, DecidableEq

/-- `ApiRequestHandler.check_suite_id`, with the `get_suites` response made
explicit.  Returns the Python triple of outcomes: `(some true, "")` when the
provider's suite id occurs in the remote list, `(some false, "")` when it
does not, `(none, err)` (Python `None`) on a transport error. -/
def check_suite_id (provider_suite_id : Option Int)
    (resp : APIResult (List SuiteInfo)) : Option Bool × String :=
  if resp.error_message = "" then
    let available_suites := resp.response_text.map (fun s => s.id)
    match provider_suite_id with
    | some i => if i ∈ available_suites then (some true, "") else (some false, "")
    | none => (some false, "")
  else
    (none, resp.error_message)

/-- Python truthiness of a (2-)tuple: any non-empty tuple is truthy, whatever
its components.  `ResultsUploader.__check_suite_id` branches on
`if self.api_request_handler.check_suite_id(project_id):`, i.e. on the
truthiness of the returned pair. -/
def pyTruthyPair (_p : α × β) : Bool :=
  true

/-- `ResultsUploader.__check_suite_id`: takes the pre-specified suite id and
the `get_suites` response, returns `(suite_id, result_code)`.  The source
tests the pair returned by `check_suite_id` for truthiness. -/
def check_suite_id_caller (suite_id : Int) (resp : APIResult (List SuiteInfo)) :
    Int × Int :=
  if pyTruthyPair (check_suite_id (some suite_id) resp) then (suite_id, 1)
  else (suite_id, -1)

/-- A suite resource as merged back into the data provider
(`{"suite_id": ..., "name": ...}`). -/
structure SuiteResource where
  suite_id : Int
  name : String
deriving Repr, DecidableEq

/-- A section resource as merged back into the data provider
(`{"section_id": ..., "suite_id": ..., "name": ...}`). -/
structure SectionResource where
  section_id : Int
  suite_id : Int
  name : String
deriving Repr, DecidableEq

/-- A case resource as merged back into the data provider
(`{"case_id": ..., "section_id": ..., "title": ...}`). -/
structure CaseResource where
  case_id : Int
  section_id : Int
  title : String
deriving Repr, DecidableEq

/-- Modelled from the spec: `ApiDataProvider` is not under the verified
sources.  The spec says the provider "applies returned remote identifiers
back into the tree after creation"; we model its observable state as the
accumulated lists of merged resources. -/
structure DataProvider where
  suites : List SuiteResource
  sections : List SectionResource
  cases : List CaseResource
deriving Repr, DecidableEq

/-- Modelled from the spec: `update_data(suite_data=...)` merges returned
suite identifiers into the provider. -/
def update_data_suites (provider : DataProvider) (rs : List SuiteResource) :
    DataProvider :=
  { provider with suites := provider.suites ++ rs }

/-- Modelled from the spec: `update_data(section_data=...)` merges returned
section identifiers into the provider. -/
def update_data_sections (provider : DataProvider) (rs : List SectionResource) :
    DataProvider :=
  { provider with sections := provider.sections ++ rs }

/-- Modelled from the spec: `update_data(case_data=...)` merges returned
case identifiers into the provider. -/
def update_data_cases (provider : DataProvider) (rs : List CaseResource) :
    DataProvider :=
  { provider with cases := provider.cases ++ rs }

/-- The sequential create loop shared by `add_suites` and `add_sections`:
walk the per-body transport responses in list order, collecting successful
responses; at the first failing call record its message and stop.  Returns
the collected successes, the error message (empty when all succeed), and the
number of calls actually issued. -/
def send_loop {α : Type} : List (APIResult α) → List (APIResult α) × String × Nat
  | [] => ([], "", 0)
  | r :: rest =>
    if r.error_message = "" then
      let (rs, e, k) := send_loop rest
      (r :: rs, e, k + 1)
    else
      ([], r.error_message, 1)

/-- `ApiRequestHandler.add_suites`, with one transport response per request
body (in body order).  The `add_suite` response body is `{id, name}`.
Successfully created resources are merged into the provider (the source
skips the update when nothing was created, which merges nothing either
way). -/
def add_suites (provider : DataProvider)
    (call_responses : List (APIResult SuiteInfo)) :
    (List SuiteResource × String) × DataProvider :=
  let (responses, error_message, _) := send_loop call_responses
  let returned_resources := responses.map
    (fun r => SuiteResource.mk r.response_text.id r.response_text.name)
  ((returned_resources, error_message),
    if returned_resources.length > 0 then update_data_suites provider returned_resources
    else provider)

/-- The `add_section` response body (`{id, suite_id, name}`). -/
structure SectionCreated where
  id : Int
  suite_id : Int
  name : String
deriving Repr, DecidableEq

/-- `ApiRequestHandler.add_sections`, with one transport response per request
body (in body order). -/
def add_sections (provider : DataProvider)
    (call_responses : List (APIResult SectionCreated)) :
    (List SectionResource × String) × DataProvider :=
  let (responses, error_message, _) := send_loop call_responses
  let returned_resources := responses.map
    (fun r => SectionResource.mk r.response_text.id r.response_text.suite_id
      r.response_text.name)
  ((returned_resources, error_message),
    if returned_resources.length > 0 then update_data_sections provider returned_resources
    else provider)

/-- `ApiRequestHandler.get_suite_ids`, with the `get_suites` response made
explicit.  On success returns the remote suite ids and merges the returned
resources into the provider; on a transport error returns `([], error)`. -/
def get_suite_ids (provider : DataProvider) (resp : APIResult (List SuiteInfo)) :
    (List Int × String) × DataProvider :=
  if resp.error_message = "" then
    let available_suites := resp.response_text.map (fun s => s.id)
    let returned_resources := resp.response_text.map
      (fun s => SuiteResource.mk s.id s.name)
    ((available_suites, ""),
      if returned_resources.length > 0 then update_data_suites provider returned_resources
      else provider)
  else
    (([], resp.error_message), provider)

/-- Outcome of a Python call: either a returned value or an uncaught
exception propagating out (named by the exception class). -/
inductive PyResult (α : Type) where
  | ok : α → PyResult α
  | exn : String → PyResult α
deriving Repr, DecidableEq

/-- `ResultsUploader.__prompt_user_and_add_items`: given the user's prompt
response and the `(added_items, error_message)` pair the add function would
return, produce `(added_items, result_code)`.  The add function is invoked
only on consent; on decline nothing is added and the code stays `-1`. -/
def prompt_user_and_add_items {β : Type} (prompt_response : Bool)
    (add_result : List β × String) : List β × Int :=
  if prompt_response then
    let (added_items, error_message) := add_result
    if error_message = "" then (added_items, 1) else (added_items, -1)
  else
    ([], -1)

/-- The value returned by suite resolution, together with how many times the
user was prompted on the way. -/
structure SuiteResolution where
  suite_id : Int
  result_code : Int
  prompts : Nat
deriving Repr, DecidableEq

/-- `ResultsUploader.__get_suite_id`: resolves the suite id according to the
suite mode.  Parameters make the collaborators explicit: the provider's
pre-parsed suite id, the `get_suites` response, the user's prompt answer and
the per-body `add_suite` responses (used only in multiple-suites mode on
consent).  `PyResult.exn "IndexError"` models the uncaught `suite_ids[0]`
on an empty list. -/
def get_suite_id (provider : DataProvider) (provider_suite_id : Option Int)
    (suite_mode : Int) (suites_resp : APIResult (List SuiteInfo))
    (prompt_response : Bool) (add_suite_responses : List (APIResult SuiteInfo)) :
    PyResult SuiteResolution × DataProvider :=
  match provider_suite_id with
  | none =>
    if suite_mode = SuiteModes.multiple_suites then
      let (added_suites, result_code) :=
        prompt_user_and_add_items prompt_response (add_suites provider add_suite_responses).1
      let provider' :=
        if prompt_response then (add_suites provider add_suite_responses).2 else provider
      match added_suites with
      | s :: _ => (.ok ⟨s.suite_id, result_code, 1⟩, provider')
      | [] => (.ok ⟨-1, result_code, 1⟩, provider')
    else if suite_mode = SuiteModes.single_suite_baselines then
      let ((suite_ids, error_message), provider') := get_suite_ids provider suites_resp
      if error_message ≠ "" then (.ok ⟨-1, -1, 0⟩, provider')
      else if suite_ids.length > 1 then (.ok ⟨-1, -1, 0⟩, provider')
      else
        match suite_ids with
        | i :: _ => (.ok ⟨i, 1, 0⟩, provider')
        | [] => (.exn "IndexError", provider')
    else if suite_mode = SuiteModes.single_suite then
      let ((suite_ids, error_message), provider') := get_suite_ids provider suites_resp
      if error_message ≠ "" then (.ok ⟨-1, -1, 0⟩, provider')
      else
        match suite_ids with
        | i :: _ => (.ok ⟨i, 1, 0⟩, provider')
        | [] => (.exn "IndexError", provider')
    else
      (.ok ⟨-1, -1, 0⟩, provider)
  | some sid =>
    let (sid2, rc) := check_suite_id_caller sid suites_resp
    (.ok ⟨sid2, rc, 0⟩, provider)

/-- Python set difference `list(set(a) - set(b))`: the distinct elements of
`a` that do not occur in `b` (the arbitrary iteration order of a Python set
is fixed here as first-occurrence order). -/
def pySetDiff {α : Type} [DecidableEq α] (a b : List α) : List α :=
  a.dedup.filter (fun x => decide (x ∉ b))

/-- `ApiRequestHandler.check_missing_section_ids`, with the `get_sections`
response made explicit.  `local_sections` are the `section_id`s of the
provider's sections (`none` when not yet resolved); the response body is the
list of remote section ids (`section.get("id")`).  On success returns the
local-minus-remote set difference with an empty error; on a transport error
returns `([], error)`. -/
def check_missing_section_ids (local_sections : List (Option Int))
    (resp : APIResult (List (Option Int))) : List (Option Int) × String :=
  if resp.error_message = "" then
    (pySetDiff local_sections resp.response_text, resp.error_message)
  else
    ([], resp.error_message)

/-- `ApiRequestHandler.check_missing_test_cases_ids`, with the `get_cases`
response made explicit; mirrors `check_missing_section_ids` over case ids. -/
def check_missing_test_cases_ids (local_test_cases : List (Option Int))
    (resp : APIResult (List (Option Int))) : List (Option Int) × String :=
  if resp.error_message = "" then
    (pySetDiff local_test_cases resp.response_text, resp.error_message)
  else
    ([], resp.error_message)

/-- What `ApiRequestHandler.handle_futures` produces: either the normal
return `(responses, error_message)`, or a re-raised `KeyboardInterrupt`. -/
inductive HandleResult (α : Type) where
  | ok : List (APIResult α) → String → HandleResult α
  | interrupted : HandleResult α
deriving Repr, DecidableEq

/-- `ApiRequestHandler.handle_futures`.  The scheduler is abstracted by
`completed`: the futures that ran to completion, in completion order
(`as_completed` yields exactly these; a future missing from `completed` was
cancelled before it started).  `interrupt = some m` means a
`KeyboardInterrupt` arrives while awaiting the `(m+1)`-th completion.
The drain collects successful responses in order; at the first failing
response it records the message, cancels the remaining futures and stops.
On an interrupt it cancels and re-raises.  The boolean reports whether
`__cancel_running_futures` was invoked. -/
def handle_futures {n : Nat} {α : Type} (resp : Fin n → APIResult α) :
    List (Fin n) → Option Nat → HandleResult α × Bool
  | [], _ => (.ok [] "", false)
  | j :: rest, m =>
    if m = some 0 then (.interrupted, true)
    else if (resp j).error_message = "" then
      match handle_futures resp rest (m.map (fun k => k - 1)) with
      | (.ok rs e, c) => (.ok ((resp j) :: rs) e, c)
      | (.interrupted, c) => (.interrupted, c)
    else
      (.ok [] (resp j).error_message, true)

/-- `ApiRequestHandler.retrieve_results_after_cancelling`: iterate over all
futures, skipping the cancelled ones, and collect the result of every future
that ran to completion — exactly the `completed` futures, in completion
order.  Note this keeps the failing future's (error) response as well: that
future is done, not cancelled. -/
def retrieve_results_after_cancelling {n : Nat} {α : Type}
    (resp : Fin n → APIResult α) (completed : List (Fin n)) : List (APIResult α) :=
  completed.map resp

/-- The `add_case` response body (`{id, section_id, title}`). -/
structure CaseCreated where
  id : Int
  section_id : Int
  title : String
deriving Repr, DecidableEq

/-- `ApiRequestHandler.add_cases`: dispatch one `add_case` call per body to
the worker pool, drain with `handle_futures`; when that reports an error,
replace the drained responses by the salvage pass
`retrieve_results_after_cancelling`; merge every returned resource into the
provider (skipped when nothing was returned).  A `KeyboardInterrupt` raised
inside the drain propagates out: nothing is returned and the provider is
untouched. -/
def add_cases {n : Nat} (provider : DataProvider)
    (resp : Fin n → APIResult CaseCreated) (completed : List (Fin n))
    (interrupt : Option Nat) :
    PyResult ((List CaseResource × String) × DataProvider) :=
  match handle_futures resp completed interrupt with
  | (.interrupted, _) => .exn "KeyboardInterrupt"
  | (.ok drained error_message, _) =>
    let responses :=
      if error_message ≠ "" then retrieve_results_after_cancelling resp completed
      else drained
    let returned_resources := responses.map
      (fun r => CaseResource.mk r.response_text.id r.response_text.section_id
        r.response_text.title)
    .ok ((returned_resources, error_message),
      if returned_resources.length > 0 then update_data_cases provider returned_resources
      else provider)

/-- `ApiRequestHandler.add_results`: same drain-then-salvage scheme as
`add_cases`, returning the response bodies of the completed chunks. -/
def add_results {n : Nat} {ρ : Type} (resp : Fin n → APIResult ρ)
    (completed : List (Fin n)) (interrupt : Option Nat) :
    PyResult (List ρ × String) :=
  match handle_futures resp completed interrupt with
  | (.interrupted, _) => .exn "KeyboardInterrupt"
  | (.ok drained error_message, _) =>
    let responses :=
      if error_message ≠ "" then retrieve_results_after_cancelling resp completed
      else drained
    .ok (responses.map (fun r => r.response_text), error_message)

/-- Modelled from the spec: the `FAULT_MAPPING["error_checking_missing_item"]`
template (constants module not under the verified sources): one diagnostic
line naming the checked item and carrying the transport's error message. -/
def error_checking_missing_item (missing_item error_message : String) : String :=
  "Error occurred while checking for " ++ missing_item ++ ": " ++ error_message

/-- Modelled from the spec: the `FAULT_MAPPING["no_user_agreement"]` line
logged when the user declines creation of the given item type. -/
def no_user_agreement (item_type : String) : String :=
  "User did not agree to create " ++ item_type

/-- What a reconciliation stage returns, plus its observable behaviour: how
many times the user was prompted, how many create calls were issued, and the
diagnostic lines logged. -/
structure StageOutcome (ρ : Type) where
  added : List ρ
  result_code : Int
  prompts : Nat
  create_calls : Nat
  logs : List String
deriving Repr, DecidableEq

/-- `ResultsUploader.__add_missing_sections` with
`__prompt_user_and_add_items` inlined: compute the missing-section diff; a
non-empty diff prompts once and, on consent, creates the missing sections
through `add_sections` (logging the error on failure); an empty diff with a
check error logs the error and fails without prompting; an empty diff with
no error succeeds, creating nothing. -/
def add_missing_sections (provider : DataProvider)
    (local_sections : List (Option Int)) (check_resp : APIResult (List (Option Int)))
    (prompt_response : Bool) (call_responses : List (APIResult SectionCreated)) :
    StageOutcome SectionResource × DataProvider :=
  let (missing_sections, error_message) :=
    check_missing_section_ids local_sections check_resp
  if missing_sections ≠ [] then
    if prompt_response then
      let ((added, add_error), provider') := add_sections provider call_responses
      if add_error = "" then
        (⟨added, 1, 1, (send_loop call_responses).2.2, []⟩, provider')
      else
        (⟨added, -1, 1, (send_loop call_responses).2.2, [add_error]⟩, provider')
    else
      (⟨[], -1, 1, 0, [no_user_agreement "sections"]⟩, provider)
  else
    if error_message ≠ "" then
      (⟨[], -1, 0, 0,
        [error_checking_missing_item "missing sections" error_message]⟩, provider)
    else
      (⟨[], 1, 0, 0, []⟩, provider)

/-- `ResultsUploader.__add_missing_test_cases` with
`__prompt_user_and_add_items` inlined; the create path is the concurrent
`add_cases`, whose dispatched calls are exactly the futures that ran
(`completed.length` of them), and whose `KeyboardInterrupt` propagates
through the stage. -/
def add_missing_test_cases {n : Nat} (provider : DataProvider)
    (local_test_cases : List (Option Int)) (check_resp : APIResult (List (Option Int)))
    (prompt_response : Bool) (resp : Fin n → APIResult CaseCreated)
    (completed : List (Fin n)) (interrupt : Option Nat) :
    PyResult (StageOutcome CaseResource × DataProvider) :=
  let (missing_test_cases, error_message) :=
    check_missing_test_cases_ids local_test_cases check_resp
  if missing_test_cases ≠ [] then
    if prompt_response then
      match add_cases provider resp completed interrupt with
      | .exn e => .exn e
      | .ok ((added, add_error), provider') =>
        if add_error = "" then
          .ok (⟨added, 1, 1, completed.length, []⟩, provider')
        else
          .ok (⟨added, -1, 1, completed.length, [add_error]⟩, provider')
    else
      .ok (⟨[], -1, 1, 0, [no_user_agreement "test cases"]⟩, provider)
  else
    if error_message ≠ "" then
      .ok (⟨[], -1, 0, 0,
        [error_checking_missing_item "missing test cases" error_message]⟩, provider)
    else
      .ok (⟨[], 1, 0, 0, []⟩, provider)

/-- The observable outcome of the whole pipeline: the process result code
(`0` full success, `1` fatal stage failure) and whether `add_run` was ever
invoked. -/
structure PipelineOutcome where
  exit_code : Int
  add_run_called : Bool
deriving Repr, DecidableEq

/-- `ResultsUploader.upload_results` as a sequencer over the stage outcomes:
each stage's result gates the next; any `-1` result code (or error message)
exits with code `1`; an uncaught exception from suite resolution propagates.
`add_run` is consulted only when no run id was pre-supplied and all earlier
stages succeeded. -/
def upload_results (project_data : ProjectData)
    (suite_resolution : PyResult SuiteResolution)
    (sections_result_code : Int) (cases_result_code : Int)
    (preset_run_id : Option Int) (add_run_result : Int × String)
    (add_results_error : String) (close_run_error : String) :
    PyResult PipelineOutcome :=
  if project_data.project_id = ProjectErrors.not_existing_project then
    .ok ⟨1, false⟩
  else if project_data.project_id = ProjectErrors.other_error then
    .ok ⟨1, false⟩
  else
    match suite_resolution with
    | .exn e => .exn e
    | .ok r =>
      if r.result_code = -1 then .ok ⟨1, false⟩
      else if sections_result_code = -1 then .ok ⟨1, false⟩
      else if cases_result_code = -1 then .ok ⟨1, false⟩
      else
        match preset_run_id with
        | none =>
          if add_run_result.2 ≠ "" then .ok ⟨1, true⟩
          else if add_results_error ≠ "" then .ok ⟨1, true⟩
          else if close_run_error ≠ "" then .ok ⟨1, true⟩
          else .ok ⟨0, true⟩
        | some _ =>
          if add_results_error ≠ "" then .ok ⟨1, false⟩
          else if close_run_error ≠ "" then .ok ⟨1, false⟩
          else .ok ⟨0, false⟩

/-! ## Helper lemmas -/

/-- When every element of `a` also occurs in `b`, the Python set difference
`set(a) - set(b)` is empty. -/
theorem pySetDiff_eq_nil {α : Type} [DecidableEq α] (a b : List α)
    (h : ∀ x ∈ a, x ∈ b) : pySetDiff a b = [] := by
  simp only [pySetDiff, List.filter_eq_nil_iff]
  intro x hx
  simpa using h x (List.mem_dedup.mp hx)

/-- The sequential create loop on all-successful responses: everything is
collected, no error, one call per body. -/
theorem send_loop_all_ok {α : Type} (rs : List (APIResult α))
    (h : ∀ r ∈ rs, r.error_message = "") :
    send_loop rs = (rs, "", rs.length) := by
  induction rs with
  | nil => rfl
  | cons r rest ih =>
    have hr : r.error_message = "" := h r (List.mem_cons_self r rest)
    have hrest : ∀ x ∈ rest, x.error_message = "" :=
      fun x hx => h x (List.mem_cons_of_mem r hx)
    simp [send_loop, hr, ih hrest]

/-- The sequential create loop when the first failing response sits after a
run of successes: the successes are collected, the first failure's message is
the error, and exactly `pre.length + 1` calls are issued (nothing after the
failure is attempted). -/
theorem send_loop_first_fail {α : Type} (pre : List (APIResult α))
    (bad : APIResult α) (post : List (APIResult α))
    (hpre : ∀ r ∈ pre, r.error_message = "") (hbad : bad.error_message ≠ "") :
    send_loop (pre ++ bad :: post) = (pre, bad.error_message, pre.length + 1) := by
  induction pre with
  | nil => simp [send_loop, hbad]
  | cons r rest ih =>
    have hr : r.error_message = "" := hpre r (List.mem_cons_self r rest)
    have hrest : ∀ x ∈ rest, x.error_message = "" :=
      fun x hx => hpre x (List.mem_cons_of_mem r hx)
    simp [send_loop, hr, ih hrest]

/-- Draining without interruption, when the completion order starts with a
run of successes followed by the first failure: the drain returns the
successful prefix and the first failure's message, and cancellation was
requested. -/
theorem handle_futures_first_fail {n : Nat} {α : Type} (resp : Fin n → APIResult α)
    (pre : List (Fin n)) (k : Fin n) (post : List (Fin n))
    (hpre : ∀ j ∈ pre, (resp j).error_message = "")
    (hk : (resp k).error_message ≠ "") :
    handle_futures resp (pre ++ k :: post) none =
      (.ok (pre.map resp) (resp k).error_message, true) := by
  induction pre with
  | nil => simp [handle_futures, hk]
  | cons j rest ih =>
    have hj : (resp j).error_message = "" := hpre j (List.mem_cons_self j rest)
    have hrest : ∀ x ∈ rest, (resp x).error_message = "" :=
      fun x hx => hpre x (List.mem_cons_of_mem j hx)
    simp [handle_futures, hj, ih hrest]

/-- Whenever the drain ends in a re-raised interrupt, the cancellation pass
was invoked first. -/
theorem handle_futures_interrupt_cancels {n : Nat} {α : Type}
    (resp : Fin n → APIResult α) (completed : List (Fin n)) (m : Option Nat)
    (h : (handle_futures resp completed m).1 = .interrupted) :
    (handle_futures resp completed m).2 = true := by
  induction completed generalizing m with
  | nil => simp [handle_futures] at h
  | cons j rest ih =>
    by_cases hm : m = some 0
    · simp [handle_futures, hm]
    · by_cases hj : (resp j).error_message = ""
      · have := ih (m := m.map (fun k => k - 1))
        simp only [handle_futures, if_neg hm, if_pos hj] at h ⊢
        rcases heq : handle_futures resp rest (m.map (fun k => k - 1)) with ⟨hr, c⟩
        cases hr with
        | ok rs e => simp [heq] at h
        | interrupted =>
          have hc := this (by simp [heq])
          simp [heq] at hc
          simp [heq, hc]
      · simp [handle_futures, hm, hj] at h

/-! ## C6: project resolution outcomes -/

/-- C6: for every project name and remote project list, `get_project_id`
filters by exact name equality and returns exactly one of four outcomes:
transport failure carrying the transport's message, not-found failure,
ambiguity failure, or success carrying the unique match's id and suite mode;
the four guarding conditions are exhaustive and mutually exclusive. -/
theorem get_project_id_outcomes (resp : APIResult (List ProjectInfo))
    (pn : String) :
    (resp.error_message ≠ "" →
      get_project_id resp pn =
        ⟨ProjectErrors.other_error, -1, resp.error_message⟩) ∧
    (resp.error_message = "" →
      (resp.response_text.filter (fun p => p.name = pn)).length = 0 →
      get_project_id resp pn =
        ⟨ProjectErrors.not_existing_project, -1, pn ++ " project_doesnt_exists"⟩) ∧
    (resp.error_message = "" → ∀ p : ProjectInfo,
      resp.response_text.filter (fun q => q.name = pn) = [p] →
      get_project_id resp pn = ⟨p.id, p.suite_mode, ""⟩) ∧
    (resp.error_message = "" →
      (resp.response_text.filter (fun p => p.name = pn)).length > 1 →
      get_project_id resp pn =
        ⟨ProjectErrors.multiple_project_same_name, -1, "more_than_one_project"⟩) ∧
    (resp.error_message ≠ "" ∨
      (resp.response_text.filter (fun p => p.name = pn)).length = 0 ∨
      (∃ p, resp.response_text.filter (fun q => q.name = pn) = [p]) ∨
      (resp.response_text.filter (fun p => p.name = pn)).length > 1) := by
  refine ⟨?_, ?_, ?_, ?_, ?_⟩
  · intro h
    simp [get_project_id, h]
  · intro h hlen
    simp [get_project_id, h, hlen, List.length_eq_zero.mp hlen]
  · intro h p hp
    simp [get_project_id, h, hp]
  · intro h hlen
    have h1 : (resp.response_text.filter (fun p => p.name = pn)).length ≠ 1 := by
      omega
    simp [get_project_id, h, h1, hlen]
  · by_cases h : resp.error_message = ""
    · rcases hf : resp.response_text.filter (fun p => p.name = pn) with _ | ⟨p, rest⟩
      · right; left; rw [hf]; rfl
      · rcases rest with _ | ⟨q, rest2⟩
        · exact Or.inr (Or.inr (Or.inl ⟨p, hf⟩))
        · right; right; right; rw [hf]; simp
    · exact Or.inl h

/-- Witness for C6 at a concrete input: a two-project list with a unique
name match resolves to that project's id and suite mode. -/
theorem get_project_id_outcomes_witness :
    (APIResult.error_message
      (α := List ProjectInfo) ⟨[⟨10, "Demo", 3⟩, ⟨11, "Other", 1⟩], ""⟩ = "") ∧
    get_project_id ⟨[⟨10, "Demo", 3⟩, ⟨11, "Other", 1⟩], ""⟩ "Demo" =
      ⟨10, 3, ""⟩ :=
  ⟨by decide,
    (get_project_id_outcomes ⟨[⟨10, "Demo", 3⟩, ⟨11, "Other", 1⟩], ""⟩ "Demo").2.2.1
      (by decide) ⟨10, "Demo", 3⟩ (by decide)⟩

/-! ## C2: pre-specified suite id verification -/

/-- C2 (code bug): `check_suite_id` itself classifies correctly — present
gives `(some true, "")`, absent gives `(some false, "")`, transport error
gives `(none, error)` — but `__check_suite_id` branches on the truthiness of
the returned *pair*, which is always truthy in Python, so suite resolution
reports success (result code 1) even when the suite is absent or the
membership query failed. -/
theorem check_suite_id_tuple_truthiness_bug :
    check_suite_id (some 5) ⟨[], ""⟩ = (some false, "") ∧
    check_suite_id_caller 5 ⟨[], ""⟩ = (5, 1) ∧
    check_suite_id (some 5) ⟨[⟨5, "s"⟩], ""⟩ = (some true, "") ∧
    check_suite_id_caller 5 ⟨[⟨5, "s"⟩], ""⟩ = (5, 1) ∧
    check_suite_id (some 5) ⟨[], "connection error"⟩ = (none, "connection error") ∧
    check_suite_id_caller 5 ⟨[], "connection error"⟩ = (5, 1) := by
  refine ⟨?_, rfl, ?_, rfl, ?_, rfl⟩ <;> decide

/-! ## C3: single-suite mode with an empty remote suite list -/

/-- C3 (code bug): in single-suite mode with no pre-specified suite id and an
empty (error-free) remote suite list, suite resolution does not return the
documented `(-1, -1)` failure: `suite_ids[0]` raises an uncaught
`IndexError`, which propagates through `upload_results` (so `exit(1)` is
never reached, though no test run is created either — the pipeline result is
the same whatever `add_run` would have answered). -/
theorem get_suite_id_empty_single_suite_crash :
    get_suite_id ⟨[], [], []⟩ none SuiteModes.single_suite ⟨[], ""⟩ false [] =
      (.exn "IndexError", ⟨[], [], []⟩) ∧
    upload_results ⟨10, 1, ""⟩
      (get_suite_id ⟨[], [], []⟩ none SuiteModes.single_suite ⟨[], ""⟩ false []).1
      1 1 none (5, "") "" "" = .exn "IndexError" ∧
    upload_results ⟨10, 1, ""⟩ (.exn "IndexError") 1 1 none (777, "kaput") "" "" =
      .exn "IndexError" := by
  refine ⟨by decide, by decide, by decide⟩

/-! ## C10: sequential suite/section creation -/

/-- Merging no suite resources leaves the provider unchanged. -/
theorem update_data_suites_nil (provider : DataProvider) :
    update_data_suites provider [] = provider := by
  simp [update_data_suites]

/-- Merging no section resources leaves the provider unchanged. -/
theorem update_data_sections_nil (provider : DataProvider) :
    update_data_sections provider [] = provider := by
  simp [update_data_sections]

/-- Merging no case resources leaves the provider unchanged. -/
theorem update_data_cases_nil (provider : DataProvider) :
    update_data_cases provider [] = provider := by
  simp [update_data_cases]

/-- C10: `add_suites` and `add_sections` issue their create calls
sequentially in body order and stop at the first failing call: every body
before the first failure is created and merged into the provider, exactly
`pre.length + 1` calls are issued (nothing after the failure is attempted),
and the returned error is the first failure's message; when every call
succeeds, all bodies are created and merged, one call per body, with an
empty error. -/
theorem sequential_add_stops_at_first_failure (provider : DataProvider) :
    (∀ (pre post : List (APIResult SuiteInfo)) (bad : APIResult SuiteInfo),
      (∀ r ∈ pre, r.error_message = "") → bad.error_message ≠ "" →
      add_suites provider (pre ++ bad :: post) =
        ((pre.map (fun r => SuiteResource.mk r.response_text.id r.response_text.name),
          bad.error_message),
          update_data_suites provider
            (pre.map (fun r => SuiteResource.mk r.response_text.id r.response_text.name))) ∧
      (send_loop (pre ++ bad :: post)).2.2 = pre.length + 1) ∧
    (∀ rs : List (APIResult SuiteInfo), (∀ r ∈ rs, r.error_message = "") →
      add_suites provider rs =
        ((rs.map (fun r => SuiteResource.mk r.response_text.id r.response_text.name), ""),
          update_data_suites provider
            (rs.map (fun r => SuiteResource.mk r.response_text.id r.response_text.name))) ∧
      (send_loop rs).2.2 = rs.length) ∧
    (∀ (pre post : List (APIResult SectionCreated)) (bad : APIResult SectionCreated),
      (∀ r ∈ pre, r.error_message = "") → bad.error_message ≠ "" →
      add_sections provider (pre ++ bad :: post) =
        ((pre.map (fun r => SectionResource.mk r.response_text.id
            r.response_text.suite_id r.response_text.name), bad.error_message),
          update_data_sections provider
            (pre.map (fun r => SectionResource.mk r.response_text.id
              r.response_text.suite_id r.response_text.name))) ∧
      (send_loop (pre ++ bad :: post)).2.2 = pre.length + 1) ∧
    (∀ rs : List (APIResult SectionCreated), (∀ r ∈ rs, r.error_message = "") →
      add_sections provider rs =
        ((rs.map (fun r => SectionResource.mk r.response_text.id
            r.response_text.suite_id r.response_text.name), ""),
          update_data_sections provider
            (rs.map (fun r => SectionResource.mk r.response_text.id
              r.response_text.suite_id r.response_text.name))) ∧
      (send_loop rs).2.2 = rs.length) := by
  refine ⟨?_, ?_, ?_, ?_⟩
  · intro pre post bad hpre hbad
    have hs := send_loop_first_fail pre bad post hpre hbad
    refine ⟨?_, by simp [hs]⟩
    simp only [add_suites, hs]
    by_cases hp : pre = []
    · subst hp
      simp [update_data_suites_nil]
    · have hlen : 0 < (pre.map (fun r : APIResult SuiteInfo =>
          SuiteResource.mk r.response_text.id r.response_text.name)).length := by
        simpa [List.length_pos] using hp
      simp [hlen, hp]
  · intro rs hrs
    have hs := send_loop_all_ok rs hrs
    refine ⟨?_, by simp [hs]⟩
    simp only [add_suites, hs]
    by_cases hp : rs = []
    · subst hp
      simp [update_data_suites_nil]
    · have hlen : 0 < (rs.map (fun r : APIResult SuiteInfo =>
          SuiteResource.mk r.response_text.id r.response_text.name)).length := by
        simpa [List.length_pos] using hp
      simp [hlen, hp]
  · intro pre post bad hpre hbad
    have hs := send_loop_first_fail pre bad post hpre hbad
    refine ⟨?_, by simp [hs]⟩
    simp only [add_sections, hs]
    by_cases hp : pre = []
    · subst hp
      simp [update_data_sections_nil]
    · have hlen : 0 < (pre.map (fun r : APIResult SectionCreated =>
          SectionResource.mk r.response_text.id r.response_text.suite_id
            r.response_text.name)).length := by
        simpa [List.length_pos] using hp
      simp [hlen, hp]
  · intro rs hrs
    have hs := send_loop_all_ok rs hrs
    refine ⟨?_, by simp [hs]⟩
    simp only [add_sections, hs]
    by_cases hp : rs = []
    · subst hp
      simp [update_data_sections_nil]
    · have hlen : 0 < (rs.map (fun r : APIResult SectionCreated =>
          SectionResource.mk r.response_text.id r.response_text.suite_id
            r.response_text.name)).length := by
        simpa [List.length_pos] using hp
      simp [hlen, hp]

/-- Witness for C10 at a concrete input: two successful suite bodies
followed by a failing one yield the two created suites, the failure's
message, three issued calls, and the two suites merged. -/
theorem sequential_add_stops_at_first_failure_witness :
    add_suites ⟨[], [], []⟩
      [⟨⟨1, "a"⟩, ""⟩, ⟨⟨2, "b"⟩, ""⟩, ⟨⟨0, "c"⟩, "boom"⟩] =
      (([⟨1, "a"⟩, ⟨2, "b"⟩], "boom"), ⟨[⟨1, "a"⟩, ⟨2, "b"⟩], [], []⟩) ∧
    (send_loop [⟨⟨1, "a"⟩, ""⟩, ⟨⟨2, "b"⟩, ""⟩,
      (⟨⟨0, "c"⟩, "boom"⟩ : APIResult SuiteInfo)]).2.2 = 3 := by
  have h := (sequential_add_stops_at_first_failure ⟨[], [], []⟩).1
    [⟨⟨1, "a"⟩, ""⟩, ⟨⟨2, "b"⟩, ""⟩] [] ⟨⟨0, "c"⟩, "boom"⟩
    (by decide) (by decide)
  exact ⟨h.1, h.2⟩

/-! ## C7: empty diff means no creates, no prompt, success -/

/-- C7: when the missing-item check returns an empty diff with no error,
both reconciliation stages succeed (result code 1) with no prompt and no
create calls, leaving the provider untouched; and against a remote state
already containing every local identifier the computed diff is empty, so a
second reconciliation run performs zero create calls. -/
theorem reconcile_empty_diff_no_creates :
    (∀ (provider : DataProvider) (ls : List (Option Int))
      (resp_s : APIResult (List (Option Int))) (pr : Bool)
      (crs : List (APIResult SectionCreated)),
      check_missing_section_ids ls resp_s = ([], "") →
      add_missing_sections provider ls resp_s pr crs =
        (⟨[], 1, 0, 0, []⟩, provider)) ∧
    (∀ (n : Nat) (provider : DataProvider) (lc : List (Option Int))
      (resp_c : APIResult (List (Option Int))) (pr : Bool)
      (resp : Fin n → APIResult CaseCreated) (completed : List (Fin n))
      (interrupt : Option Nat),
      check_missing_test_cases_ids lc resp_c = ([], "") →
      add_missing_test_cases provider lc resp_c pr resp completed interrupt =
        .ok (⟨[], 1, 0, 0, []⟩, provider)) ∧
    (∀ (ls : List (Option Int)) (resp_s : APIResult (List (Option Int))),
      resp_s.error_message = "" → (∀ x ∈ ls, x ∈ resp_s.response_text) →
      check_missing_section_ids ls resp_s = ([], "")) ∧
    (∀ (lc : List (Option Int)) (resp_c : APIResult (List (Option Int))),
      resp_c.error_message = "" → (∀ x ∈ lc, x ∈ resp_c.response_text) →
      check_missing_test_cases_ids lc resp_c = ([], "")) := by
  refine ⟨?_, ?_, ?_, ?_⟩
  · intro provider ls resp_s pr crs h
    simp [add_missing_sections, h]
  · intro n provider lc resp_c pr resp completed interrupt h
    simp [add_missing_test_cases, h]
  · intro ls resp_s herr hsub
    simp [check_missing_section_ids, herr, pySetDiff_eq_nil _ _ hsub]
  · intro lc resp_c herr hsub
    simp [check_missing_test_cases_ids, herr, pySetDiff_eq_nil _ _ hsub]

/-- Witness for C7 at a concrete input: local sections `{1, 2}` against
remote sections `{1, 2, 3}` give an empty diff, and the stage then issues no
create call and no prompt and succeeds. -/
theorem reconcile_empty_diff_no_creates_witness :
    check_missing_section_ids [some 1, some 2] ⟨[some 1, some 2, some 3], ""⟩ =
      ([], "") ∧
    add_missing_sections ⟨[], [], []⟩ [some 1, some 2]
      ⟨[some 1, some 2, some 3], ""⟩ true [] =
      (⟨[], 1, 0, 0, []⟩, ⟨[], [], []⟩) := by
  have hdiff := (reconcile_empty_diff_no_creates).2.2.1
    [some 1, some 2] ⟨[some 1, some 2, some 3], ""⟩ (by decide) (by decide)
  exact ⟨hdiff, (reconcile_empty_diff_no_creates).1 ⟨[], [], []⟩ [some 1, some 2]
    ⟨[some 1, some 2, some 3], ""⟩ true [] hdiff⟩

/-! ## C8: a transport error in the missing-item check propagates -/

/-- C8: when the missing-item check has a transport error, both
reconciliation stages fail with result code -1, logging the formatted error,
with no prompt and no create calls. -/
theorem reconcile_check_error_propagates :
    (∀ (provider : DataProvider) (ls : List (Option Int))
      (resp_s : APIResult (List (Option Int))) (pr : Bool)
      (crs : List (APIResult SectionCreated)),
      resp_s.error_message ≠ "" →
      add_missing_sections provider ls resp_s pr crs =
        (⟨[], -1, 0, 0,
          [error_checking_missing_item "missing sections" resp_s.error_message]⟩,
          provider)) ∧
    (∀ (n : Nat) (provider : DataProvider) (lc : List (Option Int))
      (resp_c : APIResult (List (Option Int))) (pr : Bool)
      (resp : Fin n → APIResult CaseCreated) (completed : List (Fin n))
      (interrupt : Option Nat),
      resp_c.error_message ≠ "" →
      add_missing_test_cases provider lc resp_c pr resp completed interrupt =
        .ok (⟨[], -1, 0, 0,
          [error_checking_missing_item "missing test cases" resp_c.error_message]⟩,
          provider)) := by
  constructor
  · intro provider ls resp_s pr crs h
    simp [add_missing_sections, check_missing_section_ids, h]
  · intro n provider lc resp_c pr resp completed interrupt h
    simp [add_missing_test_cases, check_missing_test_cases_ids, h]

/-- Witness for C8 at a concrete input: a failing `get_sections` check makes
the stage fail with the logged transport error, no prompt, no create call. -/
theorem reconcile_check_error_propagates_witness :
    add_missing_sections ⟨[], [], []⟩ [some 1] ⟨[], "conn refused"⟩ true [] =
      (⟨[], -1, 0, 0,
        [error_checking_missing_item "missing sections" "conn refused"]⟩,
        ⟨[], [], []⟩) :=
  (reconcile_check_error_propagates).1 ⟨[], [], []⟩ [some 1] ⟨[], "conn refused"⟩
    true [] (by decide)

/-! ## C5: a failed case batch still merges its salvaged resources -/

/-- C5: whenever the drain of a case-creation batch ends with a non-empty
error, `add_cases` returns exactly the salvaged responses' resources and has
merged them all into the data provider before returning. -/
theorem add_cases_failed_batch_still_merges {n : Nat} (provider : DataProvider)
    (resp : Fin n → APIResult CaseCreated) (completed : List (Fin n))
    (interrupt : Option Nat) (drained : List (APIResult CaseCreated)) (em : String)
    (c : Bool) (heq : handle_futures resp completed interrupt = (.ok drained em, c))
    (he : em ≠ "") :
    add_cases provider resp completed interrupt =
      .ok (((retrieve_results_after_cancelling resp completed).map
          (fun r => CaseResource.mk r.response_text.id r.response_text.section_id
            r.response_text.title), em),
        update_data_cases provider
          ((retrieve_results_after_cancelling resp completed).map
            (fun r => CaseResource.mk r.response_text.id r.response_text.section_id
              r.response_text.title))) ∧
    (∀ x ∈ (retrieve_results_after_cancelling resp completed).map
        (fun r => CaseResource.mk r.response_text.id r.response_text.section_id
          r.response_text.title),
      x ∈ (update_data_cases provider
        ((retrieve_results_after_cancelling resp completed).map
          (fun r => CaseResource.mk r.response_text.id r.response_text.section_id
            r.response_text.title))).cases) := by
  constructor
  · simp only [add_cases, heq]
    by_cases hret : (retrieve_results_after_cancelling resp completed).map
        (fun r => CaseResource.mk r.response_text.id r.response_text.section_id
          r.response_text.title) = []
    · simp [he, hret, update_data_cases_nil]
    · have hlen : 0 < ((retrieve_results_after_cancelling resp completed).map
          (fun r => CaseResource.mk r.response_text.id r.response_text.section_id
            r.response_text.title)).length := List.length_pos.mpr hret
      simp [he, hlen]
      intro h0
      simp [h0] at hret
  · intro x hx
    simp only [update_data_cases, List.mem_append]
    exact Or.inr hx

/-- Witness for C5 at a concrete input: a one-unit batch whose only call
fails still returns that unit's salvaged resource and merges it. -/
theorem add_cases_failed_batch_still_merges_witness :
    add_cases ⟨[], [], []⟩ (fun _ : Fin 1 => ⟨⟨9, 2, "t"⟩, "boom"⟩) [0] none =
      .ok (([⟨9, 2, "t"⟩], "boom"), ⟨[], [], [⟨9, 2, "t"⟩]⟩) := by
  have h := add_cases_failed_batch_still_merges ⟨[], [], []⟩
    (fun _ : Fin 1 => ⟨⟨9, 2, "t"⟩, "boom"⟩) [0] none [] "boom" true
    (by decide) (by decide)
  exact h.1.trans (by decide)

/-! ## C1: which units the salvaged completed set contains -/

/-- C1 (counterexample to the claim as stated): a two-unit batch in which
unit 0 is the first to fail and unit 1 finishes during cancellation.  The
returned completed set contains the *failed* unit's resource (its future is
done, not cancelled, so the salvage pass keeps it), while the claim says the
completed set excludes the failed unit. -/
theorem batch_completed_excludes_failed_counterexample :
    add_cases ⟨[], [], []⟩
      (fun j : Fin 2 => if j = 0 then ⟨⟨99, 1, "bad"⟩, "boom"⟩
        else ⟨⟨7, 1, "good"⟩, ""⟩) [0, 1] none =
      .ok (([⟨99, 1, "bad"⟩, ⟨7, 1, "good"⟩], "boom"),
        ⟨[], [], [⟨99, 1, "bad"⟩, ⟨7, 1, "good"⟩]⟩) ∧
    ((fun j : Fin 2 => if j = 0 then (⟨⟨99, 1, "bad"⟩, "boom"⟩ : APIResult CaseCreated)
        else ⟨⟨7, 1, "good"⟩, ""⟩) 0).error_message ≠ "" ∧
    (⟨99, 1, "bad"⟩ : CaseResource) ∈ [(⟨99, 1, "bad"⟩ : CaseResource), ⟨7, 1, "good"⟩] := by
  refine ⟨by decide, by decide, by decide⟩

/-- C1 (amended): with unit `k` the first to fail in the completion order,
the salvaged completed set is exactly the responses of the units that ran to
completion: it is a subset of the batch's units, includes every unit already
finished at cancellation time and every in-flight unit that finished during
cancellation, contains no never-dispatched (cancelled) unit — and it also
contains the failed unit `k` itself, whose finished (error) response the
salvage pass keeps. -/
theorem batch_salvage_amended {n : Nat} (provider : DataProvider)
    (resp : Fin n → APIResult CaseCreated) (pre : List (Fin n)) (k : Fin n)
    (post : List (Fin n))
    (hpre : ∀ j ∈ pre, (resp j).error_message = "")
    (hk : (resp k).error_message ≠ "") :
    handle_futures resp (pre ++ k :: post) none =
      (.ok (pre.map resp) (resp k).error_message, true) ∧
    retrieve_results_after_cancelling resp (pre ++ k :: post) =
      (pre ++ k :: post).map resp ∧
    resp k ∈ retrieve_results_after_cancelling resp (pre ++ k :: post) ∧
    (∀ j ∈ pre ++ k :: post,
      resp j ∈ retrieve_results_after_cancelling resp (pre ++ k :: post)) ∧
    (∀ x ∈ retrieve_results_after_cancelling resp (pre ++ k :: post),
      ∃ j : Fin n, x = resp j) ∧
    (Function.Injective resp → ∀ j : Fin n, j ∉ pre ++ k :: post →
      resp j ∉ retrieve_results_after_cancelling resp (pre ++ k :: post)) ∧
    add_cases provider resp (pre ++ k :: post) none =
      .ok ((((pre ++ k :: post).map resp).map
          (fun r => CaseResource.mk r.response_text.id r.response_text.section_id
            r.response_text.title), (resp k).error_message),
        update_data_cases provider (((pre ++ k :: post).map resp).map
          (fun r => CaseResource.mk r.response_text.id r.response_text.section_id
            r.response_text.title))) := by
  have hhf := handle_futures_first_fail resp pre k post hpre hk
  have hretr : retrieve_results_after_cancelling resp (pre ++ k :: post) =
      (pre ++ k :: post).map resp := rfl
  refine ⟨hhf, hretr, ?_, ?_, ?_, ?_, ?_⟩
  · rw [hretr]
    exact List.mem_map_of_mem resp (by simp)
  · intro j hj
    rw [hretr]
    exact List.mem_map_of_mem resp hj
  · intro x hx
    rw [hretr] at hx
    rcases List.mem_map.mp hx with ⟨j, _, hj⟩
    exact ⟨j, hj.symm⟩
  · intro hinj j hj hmem
    rw [hretr] at hmem
    rcases List.mem_map.mp hmem with ⟨i, hi, hij⟩
    exact hj (hinj hij ▸ hi)
  · have h := add_cases_failed_batch_still_merges provider resp (pre ++ k :: post)
      none (pre.map resp) ((resp k).error_message) true hhf hk
    rw [hretr] at h
    exact h.1

/-- Witness for C1's amended theorem at a concrete input: unit 1 finished
first, then unit 0 failed; the failed unit's response is in the salvage
list. -/
theorem batch_salvage_amended_witness :
    ((fun j : Fin 2 => if j = 0 then (⟨⟨99, 1, "bad"⟩, "boom"⟩ : APIResult CaseCreated)
        else ⟨⟨7, 1, "good"⟩, ""⟩) 0) ∈
      retrieve_results_after_cancelling
        (fun j : Fin 2 => if j = 0 then ⟨⟨99, 1, "bad"⟩, "boom"⟩
          else ⟨⟨7, 1, "good"⟩, ""⟩) ([1] ++ 0 :: []) := by
  have h := batch_salvage_amended ⟨[], [], []⟩
    (fun j : Fin 2 => if j = 0 then ⟨⟨99, 1, "bad"⟩, "boom"⟩
      else ⟨⟨7, 1, "good"⟩, ""⟩) [1] 0 [] (by decide) (by decide)
  exact h.2.2.1

/-! ## C9: external interrupt while draining -/

/-- C9 (counterexample to the claim as stated): both units of a two-unit
batch run to completion successfully, unit 0 finishing before a
`KeyboardInterrupt` arrives during the drain.  The interrupt is re-raised
after cancellation, but `add_cases` propagates it without any salvage pass:
the finished units' results are discarded, not collected, and nothing is
merged — while the claim says every already-finished unit's result is still
collected. -/
theorem interrupt_no_salvage_counterexample :
    handle_futures (fun _ : Fin 2 => (⟨⟨7, 1, "t"⟩, ""⟩ : APIResult CaseCreated))
      [0, 1] (some 1) = (.interrupted, true) ∧
    add_cases ⟨[], [], []⟩ (fun _ : Fin 2 => ⟨⟨7, 1, "t"⟩, ""⟩) [0, 1] (some 1) =
      .exn "KeyboardInterrupt" := by
  refine ⟨by decide, by decide⟩

/-- C9 (amended): whenever a `KeyboardInterrupt` arrives while draining
completions, the cancellation pass runs (all not-yet-started units are
cancelled) and the interrupt is re-raised after cleanup, never swallowed —
but no salvage pass runs: `add_cases` propagates the interrupt, returning no
completed set and leaving the provider untouched. -/
theorem interrupt_cancels_and_reraises {n : Nat} (provider : DataProvider)
    (resp : Fin n → APIResult CaseCreated) (completed : List (Fin n))
    (m : Option Nat)
    (h : (handle_futures resp completed m).1 = .interrupted) :
    (handle_futures resp completed m).2 = true ∧
    add_cases provider resp completed m = .exn "KeyboardInterrupt" := by
  refine ⟨handle_futures_interrupt_cancels resp completed m h, ?_⟩
  rcases heq : handle_futures resp completed m with ⟨hr, c⟩
  cases hr with
  | ok rs e => rw [heq] at h; simp at h
  | interrupted => simp [add_cases, heq]

/-- Witness for C9's amended theorem at a concrete input: an interrupt
before the first completion cancels and re-raises. -/
theorem interrupt_cancels_and_reraises_witness :
    add_cases ⟨[], [], []⟩ (fun _ : Fin 1 => (⟨⟨7, 1, "t"⟩, ""⟩ : APIResult CaseCreated))
      [0] (some 0) = .exn "KeyboardInterrupt" :=
  (interrupt_cancels_and_reraises ⟨[], [], []⟩
    (fun _ : Fin 1 => ⟨⟨7, 1, "t"⟩, ""⟩) [0] (some 0) (by decide)).2

/-! ## C4: the shape of suite-resolution outcomes -/

/-- C4 (counterexample to the claim as stated): in multiple-suites mode with
consent, when the first suite body is created and the second fails, suite
resolution returns the created suite's id `5` together with failure code
`-1` — an outcome that is neither "valid id with success code" nor
"-1 with failure code". -/
theorem suite_resolution_two_outcomes_counterexample :
    get_suite_id ⟨[], [], []⟩ none SuiteModes.multiple_suites ⟨[], ""⟩ true
      [⟨⟨5, "s"⟩, ""⟩, ⟨⟨0, "x"⟩, "boom"⟩] =
      (.ok ⟨5, -1, 1⟩, ⟨[⟨5, "s"⟩], [], []⟩) ∧
    ¬((SuiteResolution.mk 5 (-1) 1).result_code = 1 ∨
      ((SuiteResolution.mk 5 (-1) 1).suite_id = -1 ∧
        (SuiteResolution.mk 5 (-1) 1).result_code = -1)) := by
  refine ⟨by decide, by decide⟩

/-- C4 (amended): suite resolution either returns a result whose code is `1`
or `-1` — prompting at most once, and exactly when the mode is
multiple-suites with no pre-specified id; on failure the returned suite id
need not be `-1` (a partially created suite's id can accompany code `-1`) —
or it raises an uncaught `IndexError`, which happens only with no
pre-specified id, an error-free empty remote suite list, and mode
single-suite or single-suite-with-baselines. -/
theorem suite_resolution_amended (provider : DataProvider) (psid : Option Int)
    (mode : Int) (resp : APIResult (List SuiteInfo)) (pr : Bool)
    (ars : List (APIResult SuiteInfo)) :
    (∃ r : SuiteResolution,
      (get_suite_id provider psid mode resp pr ars).1 = .ok r ∧
      (r.result_code = 1 ∨ r.result_code = -1) ∧
      r.prompts ≤ 1 ∧
      (r.prompts = 1 ↔ (psid = none ∧ mode = SuiteModes.multiple_suites))) ∨
    ((get_suite_id provider psid mode resp pr ars).1 = .exn "IndexError" ∧
      psid = none ∧ resp.error_message = "" ∧ resp.response_text = [] ∧
      (mode = SuiteModes.single_suite ∨ mode = SuiteModes.single_suite_baselines)) := by
  rcases psid with _ | sid
  · by_cases h3 : mode = SuiteModes.multiple_suites
    · left
      rcases hprompt : prompt_user_and_add_items pr (add_suites provider ars).1
        with ⟨added2, rc⟩
      have hrc : rc = 1 ∨ rc = -1 := by
        rcases pr with _ | _
        · simp [prompt_user_and_add_items] at hprompt
          exact Or.inr hprompt.2.symm
        · simp [prompt_user_and_add_items] at hprompt
          by_cases haerr : (add_suites provider ars).1.2 = ""
          · simp [haerr] at hprompt
            exact Or.inl hprompt.2.symm
          · simp [haerr] at hprompt
            exact Or.inr hprompt.2.symm
      rcases added2 with _ | ⟨s, rest⟩
      · refine ⟨⟨-1, rc, 1⟩, ?_, hrc, le_refl 1, by simp [h3]⟩
        simp [get_suite_id, h3, hprompt]
      · refine ⟨⟨s.suite_id, rc, 1⟩, ?_, hrc, le_refl 1, by simp [h3]⟩
        simp [get_suite_id, h3, hprompt]
    · by_cases h2 : mode = SuiteModes.single_suite_baselines
      · by_cases herr : resp.error_message = ""
        · rcases hr : resp.response_text with _ | ⟨s, rest⟩
          · right
            refine ⟨?_, rfl, herr, rfl, Or.inr h2⟩
            simp [get_suite_id, h2, get_suite_ids, herr, hr,
              SuiteModes.single_suite_baselines, SuiteModes.multiple_suites]
          · rcases rest with _ | ⟨s2, rest2⟩
            · left
              refine ⟨⟨s.id, 1, 0⟩, ?_, Or.inl rfl, by simp, by
                simp [h2, SuiteModes.single_suite_baselines, SuiteModes.multiple_suites]⟩
              simp [get_suite_id, h2, get_suite_ids, herr, hr,
                SuiteModes.single_suite_baselines, SuiteModes.multiple_suites]
            · left
              refine ⟨⟨-1, -1, 0⟩, ?_, Or.inr rfl, by simp, by
                simp [h2, SuiteModes.single_suite_baselines, SuiteModes.multiple_suites]⟩
              simp [get_suite_id, h2, get_suite_ids, herr, hr,
                SuiteModes.single_suite_baselines, SuiteModes.multiple_suites]
        · left
          refine ⟨⟨-1, -1, 0⟩, ?_, Or.inr rfl, by simp, by
            simp [h2, SuiteModes.single_suite_baselines, SuiteModes.multiple_suites]⟩
          simp [get_suite_id, h2, get_suite_ids, herr,
            SuiteModes.single_suite_baselines, SuiteModes.multiple_suites]
      · by_cases h1 : mode = SuiteModes.single_suite
        · by_cases herr : resp.error_message = ""
          · rcases hr : resp.response_text with _ | ⟨s, rest⟩
            · right
              refine ⟨?_, rfl, herr, rfl, Or.inl h1⟩
              simp [get_suite_id, h1, get_suite_ids, herr, hr,
                SuiteModes.single_suite, SuiteModes.single_suite_baselines,
                SuiteModes.multiple_suites]
            · left
              refine ⟨⟨s.id, 1, 0⟩, ?_, Or.inl rfl, by simp, by
                simp [h1, SuiteModes.single_suite, SuiteModes.multiple_suites]⟩
              simp [get_suite_id, h1, get_suite_ids, herr, hr,
                SuiteModes.single_suite, SuiteModes.single_suite_baselines,
                SuiteModes.multiple_suites]
          · left
            refine ⟨⟨-1, -1, 0⟩, ?_, Or.inr rfl, by simp, by
              simp [h1, SuiteModes.single_suite, SuiteModes.multiple_suites]⟩
            simp [get_suite_id, h1, get_suite_ids, herr,
              SuiteModes.single_suite, SuiteModes.single_suite_baselines,
              SuiteModes.multiple_suites]
        · left
          refine ⟨⟨-1, -1, 0⟩, ?_, Or.inr rfl, by simp, by simp [h3]⟩
          simp [get_suite_id, h3, h2, h1]
  · left
    refine ⟨⟨sid, 1, 0⟩, ?_, Or.inl rfl, by simp, by simp⟩
    simp [get_suite_id, check_suite_id_caller, pyTruthyPair]

/-- Witness for C4's amended theorem at a concrete input: unknown suite mode
4 resolves to `(-1, -1)` with no prompt. -/
theorem suite_resolution_amended_witness :
    (∃ r : SuiteResolution,
      (get_suite_id ⟨[], [], []⟩ none 4 ⟨[], ""⟩ false []).1 = .ok r ∧
      (r.result_code = 1 ∨ r.result_code = -1) ∧
      r.prompts ≤ 1 ∧
      (r.prompts = 1 ↔ ((none : Option Int) = none ∧ (4 : Int) = SuiteModes.multiple_suites))) ∨
    ((get_suite_id ⟨[], [], []⟩ none 4 ⟨[], ""⟩ false []).1 = .exn "IndexError" ∧
      (none : Option Int) = none ∧
      (APIResult.error_message (α := List SuiteInfo) ⟨[], ""⟩) = "" ∧
      (APIResult.response_text (α := List SuiteInfo) ⟨[], ""⟩) = [] ∧
      ((4 : Int) = SuiteModes.single_suite ∨ (4 : Int) = SuiteModes.single_suite_baselines)) :=
  suite_resolution_amended ⟨[], [], []⟩ none 4 ⟨[], ""⟩ false []

end Trcli
